import Mathlib

/-!
Verification development for the Structural Inference & Time-Axis Resolution
Engine of the Process_SemanticModel repository.  The definitions below are a
shallow embedding of `src/main.py` (class `ComprehensiveModelDocumentor`) and
`src/json.py` (class `LLMModelDocLite`): metadata records are structures with
optional fields, Python dynamic flag values are an explicit `PyVal` type,
numeric ratios are rationals, and the external DAX query executor is an
oracle parameter.  Theorems settle the specification claims about these
functions.
-/

namespace ProcessSemanticModel

/-- Dynamic Python value stored in metadata flag fields such as
`is_active` / `is_hidden` (may be `None`, a bool, a string, an int, or a
float NaN coming from pandas). -/
inductive PyVal where
  | none
  | bool (b : Bool)
  | str (s : String)
  | int (n : Int)
  | nan
deriving DecidableEq, Repr

/-- Embedding of main.py `_safe_bool`: `None` and NaN map to `false`;
a string is `true` exactly when its trimmed lower-case form is in the
recognised truthy set (anything else, including unrecognised strings,
is `false`); bools and ints use Python truthiness. -/
def safe_bool : PyVal → Bool
  | PyVal.none => false
  | PyVal.nan => false
  | PyVal.str s => ["true", "1", "yes", "y", "t"].contains s.trim.toLower
  | PyVal.bool b => b
  | PyVal.int n => decide (n ≠ 0)

/-- Embedding of json.py `_b`: `None` maps to `false`; a string is tested
against the truthy set; any other value goes through Python `bool`, so a
float NaN is truthy here (unlike `_safe_bool`). -/
def py_b : PyVal → Bool
  | PyVal.none => false
  | PyVal.nan => true
  | PyVal.str s => ["true", "1", "yes", "y", "t"].contains s.trim.toLower
  | PyVal.bool b => b
  | PyVal.int n => decide (n ≠ 0)

/-- Python `str.lower()` (ASCII case folding suffices for the vocabularies
the engine matches against). -/
def lower (s : String) : String :=
  ⟨s.data.map Char.toLower⟩

/-- `p` is a prefix of `s` (Python `str.startswith`). -/
def starts_with (s p : String) : Bool :=
  p.data.isPrefixOf s.data

/-- `needle` occurs as a contiguous segment of `hay`. -/
def list_has_infix (needle : List Char) : List Char → Bool
  | [] => needle.isEmpty
  | c :: rest => needle.isPrefixOf (c :: rest) || list_has_infix needle rest

/-- Python `needle in hay` substring test. -/
def py_in (needle hay : String) : Bool :=
  list_has_infix needle.data hay.data

/-- The auto-generated calendar-table name pattern of main.py / json.py:
regex `^(LocalDateTable_|DateTableTemplate_)` with `re.IGNORECASE`,
i.e. a case-insensitive prefix match. -/
def auto_name (s : String) : Bool :=
  starts_with (lower s) "localdatetable_" || starts_with (lower s) "datetabletemplate_"

/-- Embedding of main.py `_is_auto_date_table` (identical to json.py
`_is_auto_table`): falsy names (`None` or the empty string) are not
auto-date tables, otherwise the prefix pattern decides. -/
def is_auto_date_table : Option String → Bool
  | Option.none => false
  | some s => if s = "" then false else auto_name s

/-- A relationship record (row of `INFO.VIEW.RELATIONSHIPS()` after
normalisation); every field may be missing/None. -/
structure Rel where
  from_table : Option String
  from_column : Option String
  to_table : Option String
  to_column : Option String
  is_active : PyVal
deriving DecidableEq, Repr

/-- A table record: name and hidden flag (the fields the engine reads). -/
structure Table where
  table_name : Option String
  is_hidden : PyVal
deriving DecidableEq, Repr

/-- A column record: owning table, name, declared data type, hidden flag. -/
structure Column where
  table_name : Option String
  column_name : Option String
  data_type : Option String
  is_hidden : PyVal
deriving DecidableEq, Repr

/-- A measure record: owning table, name, hidden flag. -/
structure Measure where
  table_name : Option String
  measure_name : Option String
  is_hidden : PyVal
deriving DecidableEq, Repr

/-- The in-memory metadata snapshot `md` passed between engine functions. -/
structure Metadata where
  tables : List Table
  columns : List Column
  measures : List Measure
  relationships : List Rel
deriving DecidableEq, Repr

/-- Embedding of main.py `_is_business_relationship` on a non-null record:
inactive relationships are filtered, then relationships with an
auto-generated calendar table at either endpoint. -/
def is_business_relationship (r : Rel) : Bool :=
  if safe_bool r.is_active = false then false
  else if is_auto_date_table r.from_table || is_auto_date_table r.to_table then false
  else true

/-- main.py `_is_business_relationship` including its null-record guard:
a `None` relationship raises `ValueError` before anything else runs. -/
def is_business_relationship_checked : Option Rel → Except String Bool
  | Option.none => Except.error "ValueError: relationship must not be None"
  | some r => Except.ok (is_business_relationship r)

/-- Embedding of json.py `_active_business_rel`: same shape as
`is_business_relationship` but using json.py's `_b` truthiness. -/
def active_business_rel (r : Rel) : Bool :=
  if py_b r.is_active = false then false
  else !(is_auto_date_table r.from_table || is_auto_date_table r.to_table)

/-- Table classifications produced by main.py `_classify_table`. -/
inductive TableType where
  | fact
  | dimension
  | bridge
  | other
deriving DecidableEq, Repr

/-- Columns belonging to a table (`c.get('table_name') == table_name`). -/
def table_columns (md : Metadata) (name : Option String) : List Column :=
  md.columns.filter (fun c => decide (c.table_name = name))

/-- Outgoing relationship count used by `_classify_table`: active
relationships from this table whose target is not an auto-date table. -/
def outgoing_count (md : Metadata) (name : Option String) : Nat :=
  (md.relationships.filter (fun r =>
    decide (r.from_table = name) && safe_bool r.is_active
      && !is_auto_date_table r.to_table)).length

/-- Incoming relationship count used by `_classify_table`: active
relationships into this table whose source is not an auto-date table. -/
def incoming_count (md : Metadata) (name : Option String) : Nat :=
  (md.relationships.filter (fun r =>
    decide (r.to_table = name) && safe_bool r.is_active
      && !is_auto_date_table r.from_table)).length

/-- Numeric type vocabulary of `_classify_table`. -/
def numeric_type_flags : List String :=
  ["int", "integer", "whole number", "decimal",
   "fixed decimal", "double", "float", "number", "currency"]

/-- Embedding of main.py `_looks_like_date_dimension`: name contains a
date keyword OR at least two date-typed columns, AND at most one measure. -/
def looks_like_date_dimension (name : Option String)
    (columns : List Column) (measures : List Measure) : Bool :=
  let name_lc := lower (name.getD "")
  let pass_name := ["dimdate", "date", "calendar"].any (fun k => py_in k name_lc)
  let col_types := (columns.filter (fun c => decide (c.table_name = name))).map
    (fun c => lower (c.data_type.getD ""))
  let has_many_date_like := decide (2 ≤ (col_types.filter (fun t => py_in "date" t)).length)
  let has_few_measures :=
    decide ((measures.filter (fun m => decide (m.table_name = name))).length ≤ 1)
  (pass_name || has_many_date_like) && has_few_measures

/-- Embedding of main.py `_classify_table`, rule for rule: fact-prefix
naming first (with the small-bridge sub-rule), then the date-dimension
test, then structural signals, finally `other`. -/
def classify_table (name : Option String) (md : Metadata) : TableType :=
  let name_lc := lower (name.getD "")
  let cols := table_columns md name
  let outgoing := outgoing_count md name
  let incoming := incoming_count md name
  let numeric_cols := (cols.filter (fun c =>
    numeric_type_flags.any (fun f => py_in f (lower (c.data_type.getD ""))))).length
  let text_cols := (cols.filter (fun c =>
    ["text", "string"].any (fun f => py_in f (lower (c.data_type.getD ""))))).length
  if starts_with name_lc "vwpcse_fact" || starts_with name_lc "fact" then
    if cols.length ≤ 3 ∧ 2 ≤ outgoing ∧ 2 ≤ incoming then TableType.bridge
    else TableType.fact
  else if looks_like_date_dimension name md.columns md.measures then TableType.dimension
  else if 2 ≤ outgoing then TableType.fact
  else if outgoing < incoming ∨ numeric_cols < text_cols then TableType.dimension
  else if cols ≠ [] ∧ cols.length ≤ 3 ∧ 2 ≤ outgoing then TableType.bridge
  else TableType.other

/-- Embedding of the `business_tables` computation in
`_extract_complete_metadata` (same filter in json.py `_fetch_metadata`):
drop auto-date tables and hidden tables. -/
def business_tables (md : Metadata) : List Table :=
  md.tables.filter (fun t =>
    !is_auto_date_table t.table_name && !safe_bool t.is_hidden)

/-- The `table_types` classification map of `_analyze_model_structure`:
one entry per business table, keyed by its (possibly None) name. -/
def table_types (md : Metadata) : List (Option String × TableType) :=
  (business_tables md).map (fun t => (t.table_name, classify_table t.table_name md))

/-- The `star_schema` map of `_analyze_model_structure`: for each fact
table, the targets of its active non-auto relationships into recognised
dimension tables. -/
def star_schema (md : Metadata) : List (Option String × List (Option String)) :=
  let tt := table_types md
  let fact_tables := (tt.filter (fun p => decide (p.2 = TableType.fact))).map Prod.fst
  let dim_tables := (tt.filter (fun p => decide (p.2 = TableType.dimension))).map Prod.fst
  fact_tables.map (fun fact =>
    (fact,
      (md.relationships.filter (fun rel =>
        safe_bool rel.is_active
          && !(is_auto_date_table rel.from_table || is_auto_date_table rel.to_table)
          && decide (rel.from_table = fact)
          && decide (rel.to_table ∈ dim_tables))).map (fun rel => rel.to_table)))

/-- One iteration of the scan in main.py `_detect_default_time_key`:
skip non-business relationships, relationships from another table, and
falsy targets; accept a target containing `dimdate` or `calendar`,
defaulting the target key to `DateKey` and requiring a truthy fact-side
key column. -/
def detect_step (fact : String) (r : Rel) : Option (String × String × String) :=
  if is_business_relationship r = false then Option.none
  else if r.from_table ≠ some fact then Option.none
  else
    match r.to_table with
    | Option.none => Option.none
    | some to_table =>
      if to_table = "" then Option.none
      else if py_in "dimdate" (lower to_table) || py_in "calendar" (lower to_table) then
        let to_column := match r.to_column with
          | Option.none => "DateKey"
          | some c => if c = "" then "DateKey" else c
        match r.from_column with
        | some fc => if fc = "" then Option.none else some (fc, to_table, to_column)
        | Option.none => Option.none
      else Option.none

/-- The relationship scan of main.py `_detect_default_time_key`: first
relationship (in listing order) accepted by `detect_step` wins. -/
def detect_default_time_key_core (fact : String) (md : Metadata) :
    Option (String × String × String) :=
  md.relationships.findSome? (detect_step fact)

/-- Embedding of main.py `_detect_default_time_key` including its loud
guard: a falsy `fact_table` argument (None or empty) raises `ValueError`. -/
def detect_default_time_key (fact : Option String) (md : Metadata) :
    Except String (Option (String × String × String)) :=
  match fact with
  | Option.none => Except.error "ValueError: fact_table must not be empty"
  | some f =>
    if f = "" then Except.error "ValueError: fact_table must not be empty"
    else Except.ok (detect_default_time_key_core f md)

/-- First loop of json.py `_find_time_key_for_fact`: a relationship from
the fact whose target equals the globally preferred DimDate table. -/
def find_first_step (fact : String) (prefer_table : Option String) (r : Rel) :
    Option (String × Option String × String) :=
  if r.from_table = some fact ∧ r.to_table = prefer_table then
    let to_col := match r.to_column with
      | Option.none => "DateKey"
      | some c => if c = "" then "DateKey" else c
    match r.from_column with
    | some fc => if fc = "" then Option.none else some (fc, r.to_table, to_col)
    | Option.none => Option.none
  else Option.none

/-- Second loop of json.py `_find_time_key_for_fact`: any relationship
from the fact into a recognised dimension whose name contains a date
keyword. -/
def find_second_step (fact : String) (dim_tables : List (Option String)) (r : Rel) :
    Option (String × Option String × String) :=
  if r.from_table = some fact ∧ r.to_table ∈ dim_tables
      ∧ (["dimdate", "calendar", "date"].any
          (fun k => py_in k (lower (r.to_table.getD "")))) = true then
    let to_col := match r.to_column with
      | Option.none => "DateKey"
      | some c => if c = "" then "DateKey" else c
    match r.from_column with
    | some fc => if fc = "" then Option.none else some (fc, r.to_table, to_col)
    | Option.none => Option.none
  else Option.none

/-- Embedding of json.py `_find_time_key_for_fact`: the preferred-table
loop runs to completion before the looser date-keyword loop is tried. -/
def find_time_key_for_fact (fact : String) (rels : List Rel)
    (dim_tables : List (Option String)) (prefer_table : Option String) :
    Option (String × Option String × String) :=
  match rels.findSome? (find_first_step fact prefer_table) with
  | some t => some t
  | Option.none => rels.findSome? (find_second_step fact dim_tables)

/-- Severity grades of the relationship quality analyzer (strings
`red`/`yellow`/`green` in main.py, `RED`/`YELLOW`/`GREEN` in json.py). -/
inductive Severity where
  | red
  | yellow
  | green
deriving DecidableEq, Repr

/-- `x is not None and x < q` on an optional rational. -/
def opt_lt (x : Option ℚ) (q : ℚ) : Bool :=
  match x with
  | some v => decide (v < q)
  | Option.none => false

/-- `x is not None and x > q` on an optional rational. -/
def opt_gt (x : Option ℚ) (q : ℚ) : Bool :=
  match x with
  | some v => decide (q < v)
  | Option.none => false

/-- The severity decision shared by main.py `_relationship_quality_checks`
and json.py `_profile_relationships_lite`: `coverage < 0.95 OR
blank_ratio > 0.05` gives red, else `coverage < 0.98 OR
blank_ratio > 0.02` gives yellow, else green; all comparisons strict and
null operands never trigger a threshold. -/
def severity_of (coverage blank_ratio : Option ℚ) : Severity :=
  if opt_lt coverage (95 / 100) || opt_gt blank_ratio (5 / 100) then Severity.red
  else if opt_lt coverage (98 / 100) || opt_gt blank_ratio (2 / 100) then Severity.yellow
  else Severity.green

/-- json.py `_profile_relationships_lite` severity, producing the upper
case string labels of the lite contract. -/
def sev_lite (coverage blank_ratio : Option ℚ) : String :=
  if opt_lt coverage (95 / 100) || opt_gt blank_ratio (5 / 100) then "RED"
  else if opt_lt coverage (98 / 100) || opt_gt blank_ratio (2 / 100) then "YELLOW"
  else "GREEN"

/-- `blank_ratio = blank_fk / total_rows`, computed only when both counts
are available and the denominator is truthy (non-zero), as in
`_relationship_quality_checks`. -/
def blank_ratio_of (blank_fk total_rows : Option Nat) : Option ℚ :=
  match blank_fk, total_rows with
  | some b, some t => if t = 0 then Option.none else some ((b : ℚ) / t)
  | _, _ => Option.none

/-- `coverage = 1 - orphan_fk / distinct_fk`, computed only when both
counts are available and the denominator is truthy (non-zero), as in
`_relationship_quality_checks`. -/
def coverage_of (orphan_fk distinct_fk : Option Nat) : Option ℚ :=
  match orphan_fk, distinct_fk with
  | some o, some d => if d = 0 then Option.none else some (1 - (o : ℚ) / d)
  | _, _ => Option.none

/-- Outcome of one external DAX query: the runner raised, returned an
empty dataframe, or returned a first row of payload `α`. -/
inductive QueryRes (α : Type) where
  | failure
  | empty
  | row (r : α)
deriving DecidableEq, Repr

/-- Row of the blank/total/distinct counting query in
`_relationship_quality_checks` (each field parsed by `_to_int_or_none`). -/
structure CountsRow where
  blank_fk : Option Nat
  total_rows : Option Nat
  distinct_fk : Option Nat
deriving DecidableEq, Repr

/-- The three counters extracted from the first quality query; a failed or
empty query leaves all of them None, as in the `try/except` of the source. -/
def counts_of (q : QueryRes CountsRow) : Option Nat × Option Nat × Option Nat :=
  match q with
  | QueryRes.row r => (r.blank_fk, r.total_rows, r.distinct_fk)
  | _ => (Option.none, Option.none, Option.none)

/-- The orphan counter extracted from the second quality query; a failed or
empty query leaves it None. -/
def orphan_of (q : QueryRes (Option Nat)) : Option Nat :=
  match q with
  | QueryRes.row v => v
  | _ => Option.none

/-- main.py `_coerce_type`: normalise a declared type string into
`number`/`date`/`text` by substring matching. -/
def coerce_type (data_type : String) : String :=
  let lowered := lower data_type
  if ["int", "integer", "whole number", "decimal", "double", "fixed decimal",
      "currency", "number"].any (fun f => py_in f lowered) then "number"
  else if ["date", "datetime", "timestamp", "time"].any (fun f => py_in f lowered) then "date"
  else "text"

/-- main.py `_select_join_type`: date wins over number wins over text. -/
def select_join_type (left_type right_type : String) : String :=
  if left_type = "date" ∨ right_type = "date" then "date"
  else if left_type = "number" ∨ right_type = "number" then "number"
  else "text"

/-- The `col_type` lookup dictionary of `_relationship_quality_checks`
(last record with the key wins, missing key yields the empty string). -/
def col_type_lookup (md : Metadata) (t c : Option String) : String :=
  match md.columns.reverse.find? (fun col =>
      decide (col.table_name = t) && decide (col.column_name = c)) with
  | some col => lower (col.data_type.getD "")
  | Option.none => ""

/-- One relationship-quality detail record (the per-edge dictionary built
by `_relationship_quality_checks`). -/
structure QualityDetail where
  from_table : String
  from_column : String
  to_table : String
  to_column : String
  blank_fk : Option Nat
  orphan_fk : Option Nat
  blank_ratio : Option ℚ
  coverage : Option ℚ
  severity : Severity
  type_mismatch : Bool
  comparison_type : String
deriving DecidableEq, Repr

/-- One iteration of the loop in `_relationship_quality_checks`:
non-business relationships and relationships with falsy endpoint fields
are skipped, the two count queries are issued through the oracle, the
ratios and severity are computed, and the detail record is emitted. -/
def quality_step (md : Metadata) (counts_q : Rel → QueryRes CountsRow)
    (orphan_q : Rel → QueryRes (Option Nat)) (rel : Rel) : Option QualityDetail :=
  if is_business_relationship rel = false then Option.none
  else
    match rel.from_table, rel.from_column, rel.to_table, rel.to_column with
    | some ft, some fc, some tt2, some tc =>
      if ft = "" ∨ fc = "" ∨ tt2 = "" ∨ tc = "" then Option.none
      else
        let dtype_from := col_type_lookup md (some ft) (some fc)
        let dtype_to := col_type_lookup md (some tt2) (some tc)
        let type_from := coerce_type dtype_from
        let type_to := coerce_type dtype_to
        let target_type := select_join_type type_from type_to
        let c := counts_of (counts_q rel)
        let orphan_fk := orphan_of (orphan_q rel)
        let blank_ratio := blank_ratio_of c.1 c.2.1
        let coverage := coverage_of orphan_fk c.2.2
        some {
          from_table := ft, from_column := fc, to_table := tt2, to_column := tc,
          blank_fk := c.1, orphan_fk := orphan_fk,
          blank_ratio := blank_ratio, coverage := coverage,
          severity := severity_of coverage blank_ratio,
          type_mismatch := decide (type_from ≠ type_to),
          comparison_type := target_type }
    | _, _, _, _ => Option.none

/-- The `details` list of `_relationship_quality_checks` over a metadata
snapshot, with the two DAX count queries supplied by oracles. -/
def quality_details (md : Metadata) (counts_q : Rel → QueryRes CountsRow)
    (orphan_q : Rel → QueryRes (Option Nat)) : List QualityDetail :=
  md.relationships.filterMap (quality_step md counts_q orphan_q)

/-- Provenance tag of a time-anchor profile: which strategy of
`_profile_time_anchor_for_table` produced it (`direct` sets
`anchor_expr_direct`, `via_key` sets `anchor_via_key`, `coalesce` sets
`anchor_via_coalesce`, `fallback` sets none of them). -/
inductive Strategy where
  | direct
  | via_key
  | coalesce
  | fallback
deriving DecidableEq, Repr

/-- Row returned by one anchor-profiling DAX query: the `column` label and
the min/max/anchor dates (as abstract day numbers) plus the window counts,
each possibly blank. -/
structure ProfRow where
  column : Option String
  min : Option Int
  max : Option Int
  anchor : Option Int
  nonblank : Option Int
  cnt7 : Option Int
  cnt30 : Option Int
  cnt90 : Option Int
deriving DecidableEq, Repr

/-- The profile dictionary returned by `_profile_time_anchor_for_table`. -/
structure AnchorProfile where
  anchor_column : Option String
  anchor_reference_column : Option String
  min : Option Int
  max : Option Int
  anchor : Option Int
  nonblank : Option Int
  cnt7 : Option Int
  cnt30 : Option Int
  cnt90 : Option Int
  strategy : Strategy
deriving DecidableEq, Repr

/-- The direct-candidate loop of `_profile_time_anchor_for_table`: each
candidate date column is profiled in turn; a raised query, an empty
dataframe, or a blank anchor advances to the next candidate; the first row
with a non-blank anchor wins. -/
def direct_try (q : String → QueryRes ProfRow) : List String → Option (String × ProfRow)
  | [] => Option.none
  | c :: rest =>
    match q c with
    | QueryRes.row r => if r.anchor.isSome then some (c, r) else direct_try q rest
    | _ => direct_try q rest

/-- The final structurally-empty profile of `_profile_time_anchor_for_table`:
all data fields None, carrying only the best-guess candidate column name. -/
def fallback_profile (direct_candidates name_candidates : List String) : AnchorProfile :=
  let fallback_column := match direct_candidates.head? with
    | some c => some c
    | Option.none => name_candidates.head?
  { anchor_column := fallback_column, anchor_reference_column := fallback_column,
    min := Option.none, max := Option.none, anchor := Option.none,
    nonblank := Option.none, cnt7 := Option.none, cnt30 := Option.none,
    cnt90 := Option.none, strategy := Strategy.fallback }

/-- The COALESCE stage of `_profile_time_anchor_for_table`: only attempted
when at least two real date-typed columns exist; a raised query, empty
dataframe, or blank anchor falls through to the fallback profile. -/
def coalesce_phase (direct_candidates name_candidates typed_date_cols : List String)
    (coalesce_q : QueryRes ProfRow) : AnchorProfile :=
  if 2 ≤ typed_date_cols.length then
    match coalesce_q with
    | QueryRes.row r =>
      if r.anchor.isSome then
        { anchor_column := r.column, anchor_reference_column := typed_date_cols.head?,
          min := r.min, max := r.max, anchor := r.anchor, nonblank := r.nonblank,
          cnt7 := r.cnt7, cnt30 := r.cnt30, cnt90 := r.cnt90,
          strategy := Strategy.coalesce }
      else fallback_profile direct_candidates name_candidates
    | _ => fallback_profile direct_candidates name_candidates
  else fallback_profile direct_candidates name_candidates

/-- The via-key stage of `_profile_time_anchor_for_table`: only attempted
when `_detect_default_time_key` found a key triple and the dimension has a
date column; a raised query, empty dataframe, or blank anchor falls
through to the COALESCE stage. -/
def via_key_phase (direct_candidates name_candidates typed_date_cols : List String)
    (key_info : Option (String × String × String)) (dim_date_col : Option String)
    (via_key_q coalesce_q : QueryRes ProfRow) : AnchorProfile :=
  match key_info, dim_date_col with
  | some (fk, _, _), some _ =>
    (match via_key_q with
     | QueryRes.row r =>
       if r.anchor.isSome then
         { anchor_column := r.column, anchor_reference_column := some fk,
           min := r.min, max := r.max, anchor := r.anchor, nonblank := r.nonblank,
           cnt7 := r.cnt7, cnt30 := r.cnt30, cnt90 := r.cnt90,
           strategy := Strategy.via_key }
       else coalesce_phase direct_candidates name_candidates typed_date_cols coalesce_q
     | _ => coalesce_phase direct_candidates name_candidates typed_date_cols coalesce_q)
  | _, _ => coalesce_phase direct_candidates name_candidates typed_date_cols coalesce_q

/-- Embedding of main.py `_profile_time_anchor_for_table` as a total
function of the candidate column lists (computed by the source from the
column metadata), the resolved key triple and dimension date column, and
one oracle per query the source can issue.  The source tries at most the
first 8 direct candidates, then via-key, then COALESCE, then returns the
fallback profile; exceptions are swallowed at every stage. -/
def profile_time_anchor (direct_candidates name_candidates typed_date_cols : List String)
    (key_info : Option (String × String × String)) (dim_date_col : Option String)
    (direct_q : String → QueryRes ProfRow) (via_key_q coalesce_q : QueryRes ProfRow) :
    AnchorProfile :=
  match direct_try direct_q (direct_candidates.take 8) with
  | some (c, r) =>
    { anchor_column := r.column, anchor_reference_column := some c,
      min := r.min, max := r.max, anchor := r.anchor, nonblank := r.nonblank,
      cnt7 := r.cnt7, cnt30 := r.cnt30, cnt90 := r.cnt90,
      strategy := Strategy.direct }
  | Option.none =>
    via_key_phase direct_candidates name_candidates typed_date_cols
      key_info dim_date_col via_key_q coalesce_q

/-- A direct-candidate attempt fails when its query raises, returns an
empty dataframe, or returns a blank anchor. -/
def direct_attempt_fails (q : String → QueryRes ProfRow) (c : String) : Bool :=
  match q c with
  | QueryRes.row r => r.anchor.isNone
  | _ => true

/-- The via-key stage fails when it is unavailable (no key triple or no
dimension date column) or its query raises, is empty, or yields a blank
anchor. -/
def via_key_fails (key_info : Option (String × String × String))
    (dim_date_col : Option String) (q : QueryRes ProfRow) : Bool :=
  match key_info, dim_date_col with
  | some _, some _ =>
    (match q with
     | QueryRes.row r => r.anchor.isNone
     | _ => true)
  | _, _ => true

/-- The COALESCE stage fails when fewer than two typed date columns exist
or its query raises, is empty, or yields a blank anchor. -/
def coalesce_fails (typed_date_cols : List String) (q : QueryRes ProfRow) : Bool :=
  if 2 ≤ typed_date_cols.length then
    (match q with
     | QueryRes.row r => r.anchor.isNone
     | _ => true)
  else true

/-- Concrete snapshot for exercising the classifier: `FactOrders` with
three outgoing active relationships (the scenario from the spec). -/
def md_c4 : Metadata :=
  { tables := [⟨some "FactOrders", PyVal.bool false⟩, ⟨some "DimA", PyVal.bool false⟩],
    columns := [⟨some "FactOrders", some "AKey", some "int64", PyVal.bool false⟩,
                ⟨some "FactOrders", some "BKey", some "int64", PyVal.bool false⟩,
                ⟨some "FactOrders", some "Amount", some "decimal", PyVal.bool false⟩,
                ⟨some "FactOrders", some "Note", some "text", PyVal.bool false⟩],
    measures := [],
    relationships :=
      [⟨some "FactOrders", some "AKey", some "DimA", some "AK", PyVal.bool true⟩,
       ⟨some "FactOrders", some "BKey", some "DimB", some "BK", PyVal.bool true⟩,
       ⟨some "FactOrders", some "CKey", some "DimC", some "CK", PyVal.bool true⟩] }

/-- Concrete snapshot for the non-fact-prefixed classifier claim: a small
junction-shaped table `LinkTbl` with two outgoing active relationships,
which the structural rules classify as fact (never bridge). -/
def md_c9 : Metadata :=
  { tables := [⟨some "LinkTbl", PyVal.bool false⟩],
    columns := [⟨some "LinkTbl", some "AKey", some "int64", PyVal.bool false⟩,
                ⟨some "LinkTbl", some "BKey", some "int64", PyVal.bool false⟩],
    measures := [],
    relationships :=
      [⟨some "LinkTbl", some "AKey", some "DimA", some "AK", PyVal.bool true⟩,
       ⟨some "LinkTbl", some "BKey", some "DimB", some "BK", PyVal.bool true⟩] }

/-- Active relationship from `FactOrders` to a table matching only the
looser `calendar` keyword; listed before the DimDate relationship. -/
def rel_c5_cal : Rel :=
  ⟨some "FactOrders", some "k1", some "MyCalendar", some "CalKey", PyVal.bool true⟩

/-- Active relationship from `FactOrders` to the exact `DimDate`-style
table; its target key column is missing, so `DateKey` is defaulted. -/
def rel_c5_dim : Rel :=
  ⟨some "FactOrders", some "k2", some "DimDate", Option.none, PyVal.bool true⟩

/-- Snapshot where a looser calendar-keyword target precedes the exact
DimDate target in the relationship listing. -/
def md_c5 : Metadata := ⟨[], [], [], [rel_c5_cal, rel_c5_dim]⟩

/-- Snapshot containing an auto-generated calendar table alongside a fact
and a dimension, with one auto-date relationship and one business one. -/
def md_c6 : Metadata :=
  { tables := [⟨some "LocalDateTable_00", PyVal.bool false⟩,
               ⟨some "FactA", PyVal.bool false⟩,
               ⟨some "DimB", PyVal.bool false⟩],
    columns := [],
    measures := [],
    relationships :=
      [⟨some "FactA", some "D", some "LocalDateTable_00", some "Date", PyVal.bool true⟩,
       ⟨some "FactA", some "BKey", some "DimB", some "BK", PyVal.bool true⟩] }

/-- Snapshot with a single business relationship, used to exercise the
relationship-quality analyzer end to end. -/
def md_c7 : Metadata :=
  { tables := [⟨some "FactS", PyVal.bool false⟩, ⟨some "DimQ", PyVal.bool false⟩],
    columns := [],
    measures := [],
    relationships := [⟨some "FactS", some "QKey", some "DimQ", some "QK", PyVal.bool true⟩] }

/-- Concrete counts row answered by the quality oracle in examples:
2 blank foreign keys out of 10 rows, 5 distinct key values. -/
def cr_c7 : CountsRow := ⟨some 2, some 10, some 5⟩

/-- Snapshot containing a hidden table (`SecretT`) next to a visible one. -/
def md_c10 : Metadata :=
  { tables := [⟨some "SecretT", PyVal.bool true⟩, ⟨some "FactA", PyVal.bool false⟩],
    columns := [],
    measures := [],
    relationships := [] }

/-- Claim C1: for relationships with non-null coverage and blank ratio,
severity is red iff `coverage < 0.95` or `blank_ratio > 0.05`, yellow iff
otherwise `coverage < 0.98` or `blank_ratio > 0.02`, green otherwise, all
comparisons strict; in particular blank ratio exactly `0.05` with coverage
`0.97` is yellow, in both the main and the lite analyzer. -/
theorem C1_severity_thresholds :
    (∀ c b : ℚ,
      (severity_of (some c) (some b) = Severity.red ↔ (c < 95 / 100 ∨ 5 / 100 < b))
      ∧ (severity_of (some c) (some b) = Severity.yellow ↔
          (¬(c < 95 / 100 ∨ 5 / 100 < b) ∧ (c < 98 / 100 ∨ 2 / 100 < b)))
      ∧ (severity_of (some c) (some b) = Severity.green ↔
          (¬(c < 95 / 100 ∨ 5 / 100 < b) ∧ ¬(c < 98 / 100 ∨ 2 / 100 < b))))
    ∧ severity_of (some (97 / 100)) (some (5 / 100)) = Severity.yellow
    ∧ sev_lite (some (97 / 100)) (some (5 / 100)) = "YELLOW" := by
  refine ⟨fun c b => ?_,
    by simp only [severity_of, opt_lt, opt_gt]; norm_num,
    by simp only [sev_lite, opt_lt, opt_gt]; norm_num⟩
  by_cases h1 : c < 95 / 100 <;> by_cases h2 : (5 : ℚ) / 100 < b <;>
    by_cases h3 : c < 98 / 100 <;> by_cases h4 : (2 : ℚ) / 100 < b <;>
      simp [severity_of, opt_lt, opt_gt, h1, h2, h3, h4]

/-- Claim C2: for every non-null relationship record, the
business-relationship predicate holds iff the active flag is truthy and
neither endpoint matches the auto-generated calendar-table prefix pattern;
this holds for main.py's predicate (with `_safe_bool` truthiness) and for
json.py's (with `_b` truthiness). -/
theorem C2_business_relationship_iff (r : Rel) :
    (is_business_relationship r = true ↔
      (safe_bool r.is_active = true ∧ is_auto_date_table r.from_table = false
        ∧ is_auto_date_table r.to_table = false))
    ∧ (active_business_rel r = true ↔
      (py_b r.is_active = true ∧ is_auto_date_table r.from_table = false
        ∧ is_auto_date_table r.to_table = false)) := by
  constructor
  · unfold is_business_relationship
    cases hA : safe_bool r.is_active <;>
      cases hF : is_auto_date_table r.from_table <;>
        cases hT : is_auto_date_table r.to_table <;> simp_all
  · unfold active_business_rel
    cases hA : py_b r.is_active <;>
      cases hF : is_auto_date_table r.from_table <;>
        cases hT : is_auto_date_table r.to_table <;> simp_all

/-- Claim C8: a null relationship record makes the business predicate
raise (never silently skip), a falsy fact-table name makes the default
time-key detector raise, and every non-null relationship record is
handled by the predicate without raising. -/
theorem C8_invalid_input_fails_loudly :
    (is_business_relationship_checked Option.none
      = Except.error "ValueError: relationship must not be None")
    ∧ (∀ r : Rel, is_business_relationship_checked (some r)
      = Except.ok (is_business_relationship r))
    ∧ (∀ md : Metadata, detect_default_time_key Option.none md
      = Except.error "ValueError: fact_table must not be empty")
    ∧ (∀ md : Metadata, detect_default_time_key (some "") md
      = Except.error "ValueError: fact_table must not be empty") :=
  ⟨rfl, fun _ => rfl, fun _ => rfl, fun _ => rfl⟩

/-- Claim C4: a table whose lower-cased name starts with `fact` or
`vwpcse_fact` is classified by the fact-prefix rule alone: bridge when it
has at most 3 columns and at least 2 outgoing and 2 incoming business
relationships, fact otherwise; no later rule is consulted. -/
theorem C4_fact_prefix_rule (name : Option String) (md : Metadata)
    (h : (starts_with (lower (name.getD "")) "vwpcse_fact"
        || starts_with (lower (name.getD "")) "fact") = true) :
    classify_table name md =
      if (table_columns md name).length ≤ 3 ∧ 2 ≤ outgoing_count md name
          ∧ 2 ≤ incoming_count md name
      then TableType.bridge else TableType.fact := by
  simp only [classify_table, h]
  simp

/-- Witness for C4 at the spec scenario: `FactOrders` matches the fact
prefix and, having 4 columns, is classified `fact`. -/
theorem C4_fact_prefix_rule_witness :
    (starts_with (lower ((some "FactOrders" : Option String).getD "")) "vwpcse_fact"
      || starts_with (lower ((some "FactOrders" : Option String).getD "")) "fact") = true
    ∧ classify_table (some "FactOrders") md_c4 =
        (if (table_columns md_c4 (some "FactOrders")).length ≤ 3
            ∧ 2 ≤ outgoing_count md_c4 (some "FactOrders")
            ∧ 2 ≤ incoming_count md_c4 (some "FactOrders")
         then TableType.bridge else TableType.fact)
    ∧ classify_table (some "FactOrders") md_c4 = TableType.fact :=
  ⟨by decide, C4_fact_prefix_rule (some "FactOrders") md_c4 (by decide), by decide⟩

/-- Claim C9: a table whose name does not match the fact-prefix
convention is never classified bridge — the structural bridge rule is
shadowed by the earlier `outgoing ≥ 2 ⇒ fact` rule — so it is classified
fact, dimension, or other. -/
theorem C9_no_bridge_without_fact_name (name : Option String) (md : Metadata)
    (h : (starts_with (lower (name.getD "")) "vwpcse_fact"
        || starts_with (lower (name.getD "")) "fact") = false) :
    classify_table name md ≠ TableType.bridge
    ∧ (classify_table name md = TableType.fact
        ∨ classify_table name md = TableType.dimension
        ∨ classify_table name md = TableType.other) := by
  simp only [classify_table, h, Bool.false_eq_true, if_false]
  split
  · exact ⟨by simp, Or.inr (Or.inl rfl)⟩
  · split
    · exact ⟨by simp, Or.inl rfl⟩
    · rename_i hout
      split
      · exact ⟨by simp, Or.inr (Or.inl rfl)⟩
      · split
        · rename_i hbr
          exact absurd hbr.2.2 hout
        · exact ⟨by simp, Or.inr (Or.inr rfl)⟩

/-- Witness for C9: `LinkTbl` has no fact prefix; despite having 2 columns
and 2 outgoing relationships it is classified `fact`, not `bridge`. -/
theorem C9_no_bridge_without_fact_name_witness :
    (starts_with (lower ((some "LinkTbl" : Option String).getD "")) "vwpcse_fact"
      || starts_with (lower ((some "LinkTbl" : Option String).getD "")) "fact") = false
    ∧ classify_table (some "LinkTbl") md_c9 ≠ TableType.bridge
    ∧ classify_table (some "LinkTbl") md_c9 = TableType.fact :=
  ⟨by decide,
   (C9_no_bridge_without_fact_name (some "LinkTbl") md_c9 (by decide)).1,
   by decide⟩

/-- Inversion of one scan step of main.py `_detect_default_time_key`: a
produced triple comes from a business relationship out of the fact whose
target contains `dimdate` or `calendar`, and is (fact key, target table,
target key or the `DateKey` default). -/
theorem detect_step_spec {fact : String} {r : Rel} {trip : String × String × String}
    (h : detect_step fact r = some trip) :
    is_business_relationship r = true ∧ r.from_table = some fact
    ∧ r.to_table = some trip.2.1
    ∧ (py_in "dimdate" (lower trip.2.1) || py_in "calendar" (lower trip.2.1)) = true
    ∧ r.from_column = some trip.1
    ∧ (r.to_column = some trip.2.2 ∨ trip.2.2 = "DateKey") := by
  simp only [detect_step] at h
  split at h
  · simp at h
  · rename_i hbus
    split at h
    · simp at h
    · rename_i hfrom
      split at h
      · simp at h
      · rename_i to_table hto
        split at h
        · simp at h
        · rename_i hne
          split at h
          · rename_i hkey
            split at h
            · rename_i fc hfc
              split at h
              · simp at h
              · rename_i hfcne
                obtain rfl := (Option.some.inj h).symm
                refine ⟨by simpa using hbus, by simpa using hfrom, hto, hkey, hfc, ?_⟩
                cases hc : r.to_column with
                | none => exact Or.inr (by simp [hc])
                | some c =>
                  by_cases hce : c = ""
                  · exact Or.inr (by simp [hc, hce])
                  · exact Or.inl (by simp [hc, hce])
            · simp at h
          · simp at h

/-- First-match behaviour of the scan: with every earlier relationship
rejected, the first accepted one supplies the result. -/
theorem detect_core_first_match (fact : String) (tables : List Table)
    (cols : List Column) (meas : List Measure) (l1 l2 : List Rel) (r : Rel)
    (trip : String × String × String)
    (h1 : ∀ r' ∈ l1, detect_step fact r' = Option.none)
    (h2 : detect_step fact r = some trip) :
    detect_default_time_key_core fact ⟨tables, cols, meas, l1 ++ r :: l2⟩ = some trip := by
  unfold detect_default_time_key_core
  induction l1 with
  | nil => simp [List.findSome?_cons, h2]
  | cons a as ih =>
    have ha := h1 a (List.mem_cons_self a as)
    simp only [List.cons_append, List.findSome?_cons, ha]
    exact ih (fun r' hr' => h1 r' (List.mem_cons_of_mem a hr'))

/-- Counterexample to Claim C5 as stated: in `md_c5` the fact table has a
business relationship to the exact-keyword table `DimDate`, but the main
resolver returns the earlier-listed relationship to `MyCalendar`, which
matches only the looser `calendar` keyword — no preference is applied. -/
theorem C5_counterexample :
    detect_default_time_key (some "FactOrders") md_c5
      = Except.ok (some ("k1", "MyCalendar", "CalKey"))
    ∧ rel_c5_dim ∈ md_c5.relationships
    ∧ is_business_relationship rel_c5_dim = true
    ∧ rel_c5_dim.from_table = some "FactOrders"
    ∧ rel_c5_dim.to_table = some "DimDate"
    ∧ py_in "dimdate" (lower "DimDate") = true
    ∧ py_in "dimdate" (lower "MyCalendar") = false := by
  refine ⟨rfl, ?_, ?_, ?_, ?_, ?_, ?_⟩ <;> decide

/-- Claim C5 (amended): the main resolver scans outgoing business
relationships in listing order and returns the first whose target
contains `dimdate` or `calendar`, as the triple (fact key, target table,
target key defaulting to `DateKey`), with no preference between the two
keywords; the preference for the pre-selected DimDate-style table over a
looser date-keyword match exists only in the lite resolver of json.py,
whose preferred-table loop completes before the looser loop starts. -/
theorem C5_time_key_resolution :
    (∀ (fact : String) (r : Rel) (trip : String × String × String),
        detect_step fact r = some trip →
          is_business_relationship r = true ∧ r.from_table = some fact
          ∧ r.to_table = some trip.2.1
          ∧ (py_in "dimdate" (lower trip.2.1) || py_in "calendar" (lower trip.2.1)) = true
          ∧ r.from_column = some trip.1
          ∧ (r.to_column = some trip.2.2 ∨ trip.2.2 = "DateKey"))
    ∧ (∀ (fact : String) (tables : List Table) (cols : List Column)
          (meas : List Measure) (l1 l2 : List Rel) (r : Rel)
          (trip : String × String × String),
        (∀ r' ∈ l1, detect_step fact r' = Option.none) →
        detect_step fact r = some trip →
        detect_default_time_key_core fact ⟨tables, cols, meas, l1 ++ r :: l2⟩ = some trip)
    ∧ (∀ (fact : String) (rels : List Rel) (dims : List (Option String))
          (prefer : Option String) (t : String × Option String × String),
        rels.findSome? (find_first_step fact prefer) = some t →
        find_time_key_for_fact fact rels dims prefer = some t) := by
  refine ⟨fun fact r trip h => detect_step_spec h,
    fun fact tables cols meas l1 l2 r trip h1 h2 =>
      detect_core_first_match fact tables cols meas l1 l2 r trip h1 h2,
    fun fact rels dims prefer t h => ?_⟩
  unfold find_time_key_for_fact
  rw [h]

/-- Witness for the amended C5: the lite resolver prefers the relationship
to the designated `DimDate` table even though a looser calendar match is
listed first, defaulting the missing target key to `DateKey`. -/
theorem C5_time_key_resolution_witness :
    ([rel_c5_cal, rel_c5_dim].findSome?
        (find_first_step "FactOrders" (some "DimDate"))
      = some ("k2", some "DimDate", "DateKey"))
    ∧ find_time_key_for_fact "FactOrders" [rel_c5_cal, rel_c5_dim] [] (some "DimDate")
      = some ("k2", some "DimDate", "DateKey") :=
  ⟨by decide,
   C5_time_key_resolution.2.2 "FactOrders" [rel_c5_cal, rel_c5_dim] [] (some "DimDate")
     ("k2", some "DimDate", "DateKey") (by decide)⟩

/-- Every key of the classification map names a metadata table that is
neither an auto-date table nor hidden. -/
theorem mem_table_types_keys {md : Metadata} {k : Option String}
    (h : k ∈ (table_types md).map Prod.fst) :
    ∃ t, t ∈ md.tables ∧ t.table_name = k
      ∧ is_auto_date_table t.table_name = false ∧ safe_bool t.is_hidden = false := by
  simp only [table_types, List.map_map, List.mem_map, Function.comp_apply] at h
  obtain ⟨t, htb, hk⟩ := h
  simp only [business_tables, List.mem_filter, Bool.and_eq_true, Bool.not_eq_true'] at htb
  exact ⟨t, htb.1, hk, htb.2.1, htb.2.2⟩

/-- Fact keys and dimension targets of the star schema are classification
map keys. -/
theorem star_schema_endpoints {md : Metadata} {p : Option String × List (Option String)}
    (hp : p ∈ star_schema md) :
    p.1 ∈ (table_types md).map Prod.fst
    ∧ ∀ d ∈ p.2, d ∈ (table_types md).map Prod.fst := by
  simp only [star_schema, List.mem_map] at hp
  obtain ⟨fact, hfact, rfl⟩ := hp
  constructor
  · simp only [List.mem_map, List.mem_filter] at hfact
    obtain ⟨pr, ⟨hpr, _⟩, hfst⟩ := hfact
    exact hfst ▸ List.mem_map_of_mem Prod.fst hpr
  · intro d hd
    simp only [List.mem_map, List.mem_filter] at hd
    obtain ⟨rel, ⟨_, hcond⟩, hdeq⟩ := hd
    rw [Bool.and_eq_true, Bool.and_eq_true, Bool.and_eq_true] at hcond
    have hdim := of_decide_eq_true hcond.2
    rw [hdeq] at hdim
    simp only [List.mem_map, List.mem_filter] at hdim ⊢
    obtain ⟨pr, ⟨hpr, _⟩, heq⟩ := hdim
    exact ⟨pr, hpr, heq⟩

/-- A business relationship has no auto-date endpoint. -/
theorem business_not_auto {r : Rel} (h : is_business_relationship r = true) :
    is_auto_date_table r.from_table = false ∧ is_auto_date_table r.to_table = false := by
  unfold is_business_relationship at h
  split at h
  · cases h
  · split at h
    · cases h
    · rename_i hor
      constructor
      · cases hf : is_auto_date_table r.from_table
        · rfl
        · exact absurd (by simp [hf]) hor
      · cases ht : is_auto_date_table r.to_table
        · rfl
        · exact absurd (by simp [ht]) hor

/-- A matching auto-date name is recognised by `is_auto_date_table`. -/
theorem is_auto_of_auto_name {n : String} (h : auto_name n = true) :
    is_auto_date_table (some n) = true := by
  simp only [is_auto_date_table]
  split
  · rename_i hn
    subst hn
    exact absurd h (by decide)
  · exact h

/-- Inversion of one loop iteration of `_relationship_quality_checks`:
an emitted detail record comes from a business relationship with truthy
endpoint fields, and its ratios are computed by `blank_ratio_of` /
`coverage_of` over the oracle answers. -/
theorem quality_step_inv {md : Metadata} {counts_q : Rel → QueryRes CountsRow}
    {orphan_q : Rel → QueryRes (Option Nat)} {rel : Rel} {e : QualityDetail}
    (h : quality_step md counts_q orphan_q rel = some e) :
    is_business_relationship rel = true
    ∧ rel.from_table = some e.from_table
    ∧ rel.to_table = some e.to_table
    ∧ e.blank_ratio
        = blank_ratio_of (counts_of (counts_q rel)).1 (counts_of (counts_q rel)).2.1
    ∧ e.coverage
        = coverage_of (orphan_of (orphan_q rel)) (counts_of (counts_q rel)).2.2 := by
  simp only [quality_step] at h
  split at h
  · simp at h
  · rename_i hbus
    split at h
    · rename_i ft fc tt2 tc hft hfc htt htc
      split at h
      · simp at h
      · obtain rfl := (Option.some.inj h).symm
        exact ⟨by simpa using hbus, hft, htt, rfl, rfl⟩
    · simp at h

/-- Claim C6: for every metadata snapshot, a name matching the
auto-generated calendar-table pattern is never a key of the
classification map, never a fact or dimension endpoint of the star
schema, and never an endpoint of a relationship-quality record. -/
theorem C6_no_auto_tables_downstream (md : Metadata)
    (counts_q : Rel → QueryRes CountsRow) (orphan_q : Rel → QueryRes (Option Nat))
    (n : String) (h : auto_name n = true) :
    some n ∉ (table_types md).map Prod.fst
    ∧ (∀ p ∈ star_schema md, p.1 ≠ some n ∧ ∀ d ∈ p.2, d ≠ some n)
    ∧ (∀ e ∈ quality_details md counts_q orphan_q,
        e.from_table ≠ n ∧ e.to_table ≠ n) := by
  have hauto := is_auto_of_auto_name h
  have hkey : some n ∉ (table_types md).map Prod.fst := by
    intro hmem
    obtain ⟨t, _, htn, hna, _⟩ := mem_table_types_keys hmem
    rw [htn, hauto] at hna
    cases hna
  refine ⟨hkey, fun p hp => ?_, fun e he => ?_⟩
  · obtain ⟨hfact, hdims⟩ := star_schema_endpoints hp
    exact ⟨fun heq => hkey (heq ▸ hfact), fun d hd heq => hkey (heq ▸ hdims d hd)⟩
  · obtain ⟨rel, _, hstep⟩ := List.mem_filterMap.mp he
    obtain ⟨hbus, hft, htt, _, _⟩ := quality_step_inv hstep
    obtain ⟨hfa, hta⟩ := business_not_auto hbus
    constructor
    · intro heq
      rw [heq] at hft
      rw [hft, hauto] at hfa
      cases hfa
    · intro heq
      rw [heq] at htt
      rw [htt, hauto] at hta
      cases hta

/-- Witness for C6 on `md_c6`: the auto table `LocalDateTable_00` appears
nowhere downstream even though a relationship references it. -/
theorem C6_no_auto_tables_downstream_witness :
    auto_name "LocalDateTable_00" = true
    ∧ (some "LocalDateTable_00" ∉ (table_types md_c6).map Prod.fst
      ∧ (∀ p ∈ star_schema md_c6, p.1 ≠ some "LocalDateTable_00"
          ∧ ∀ d ∈ p.2, d ≠ some "LocalDateTable_00")
      ∧ (∀ e ∈ quality_details md_c6 (fun _ => QueryRes.empty) (fun _ => QueryRes.empty),
          e.from_table ≠ "LocalDateTable_00" ∧ e.to_table ≠ "LocalDateTable_00")) :=
  ⟨by decide,
   C6_no_auto_tables_downstream md_c6 (fun _ => QueryRes.empty) (fun _ => QueryRes.empty)
     "LocalDateTable_00" (by decide)⟩

/-- Claim C10: a table all of whose metadata records are hidden receives
no entry in the classification map and appears nowhere in the star-schema
output, whether or not its name matches the auto-calendar pattern. -/
theorem C10_hidden_tables_excluded (md : Metadata) (n : String)
    (h : ∀ t ∈ md.tables, t.table_name = some n → safe_bool t.is_hidden = true) :
    some n ∉ (table_types md).map Prod.fst
    ∧ (∀ p ∈ star_schema md, p.1 ≠ some n ∧ ∀ d ∈ p.2, d ≠ some n) := by
  have hkey : some n ∉ (table_types md).map Prod.fst := by
    intro hmem
    obtain ⟨t, htm, htn, _, hhid⟩ := mem_table_types_keys hmem
    rw [h t htm htn] at hhid
    cases hhid
  refine ⟨hkey, fun p hp => ?_⟩
  obtain ⟨hfact, hdims⟩ := star_schema_endpoints hp
  exact ⟨fun heq => hkey (heq ▸ hfact), fun d hd heq => hkey (heq ▸ hdims d hd)⟩

/-- Witness for C10 on `md_c10`: the hidden table `SecretT` has no
classification entry and no star-schema occurrence. -/
theorem C10_hidden_tables_excluded_witness :
    (∀ t ∈ md_c10.tables, t.table_name = some "SecretT" → safe_bool t.is_hidden = true)
    ∧ (some "SecretT" ∉ (table_types md_c10).map Prod.fst
      ∧ (∀ p ∈ star_schema md_c10, p.1 ≠ some "SecretT"
          ∧ ∀ d ∈ p.2, d ≠ some "SecretT")) :=
  ⟨by decide, C10_hidden_tables_excluded md_c10 "SecretT" (by decide)⟩

/-- A quotient of counts with the numerator at most the denominator lies
in the unit interval. -/
theorem div_ratio_bounds {b t : Nat} (hle : b ≤ t) (ht : t ≠ 0) :
    0 ≤ (b : ℚ) / t ∧ (b : ℚ) / t ≤ 1 := by
  have htq : (0 : ℚ) < t := by exact_mod_cast Nat.pos_of_ne_zero ht
  refine ⟨by positivity, ?_⟩
  rw [div_le_one htq]
  exact_mod_cast hle

/-- One minus a count quotient with numerator at most denominator lies in
the unit interval. -/
theorem cov_ratio_bounds {o d : Nat} (hle : o ≤ d) (hd : d ≠ 0) :
    0 ≤ 1 - (o : ℚ) / d ∧ 1 - (o : ℚ) / d ≤ 1 := by
  have hdq : (0 : ℚ) < d := by exact_mod_cast Nat.pos_of_ne_zero hd
  have h1 : (o : ℚ) / d ≤ 1 := by
    rw [div_le_one hdq]
    exact_mod_cast hle
  have h0 : 0 ≤ (o : ℚ) / d := by positivity
  constructor <;> linarith

/-- Claim C7: whenever a relationship-quality record has a non-null
blank ratio or coverage, that value lies in `[0, 1]` (given that the
count queries report a blank count at most the row count and an orphan
count at most the distinct count, which the counting DAX guarantees);
the ratios are computed only when the denominators are non-null and
non-zero, and are the exact quotients otherwise. -/
theorem C7_ratio_bounds (md : Metadata)
    (counts_q : Rel → QueryRes CountsRow) (orphan_q : Rel → QueryRes (Option Nat))
    (hb : ∀ rel row b t, counts_q rel = QueryRes.row row → row.blank_fk = some b →
        row.total_rows = some t → b ≤ t)
    (ho : ∀ rel row d o, counts_q rel = QueryRes.row row → row.distinct_fk = some d →
        orphan_q rel = QueryRes.row (some o) → o ≤ d) :
    (∀ e ∈ quality_details md counts_q orphan_q,
        (∀ q, e.blank_ratio = some q → 0 ≤ q ∧ q ≤ 1)
        ∧ (∀ q, e.coverage = some q → 0 ≤ q ∧ q ≤ 1))
    ∧ (∀ b : Option Nat, blank_ratio_of b Option.none = Option.none
        ∧ coverage_of b Option.none = Option.none
        ∧ blank_ratio_of b (some 0) = Option.none
        ∧ coverage_of b (some 0) = Option.none
        ∧ blank_ratio_of Option.none b = Option.none
        ∧ coverage_of Option.none b = Option.none)
    ∧ (∀ bv tv : Nat, tv ≠ 0 →
        blank_ratio_of (some bv) (some tv) = some ((bv : ℚ) / tv)
        ∧ coverage_of (some bv) (some tv) = some (1 - (bv : ℚ) / tv)) := by
  refine ⟨fun e he => ?_, fun b => ?_, fun bv tv htv => ?_⟩
  · obtain ⟨rel, _, hstep⟩ := List.mem_filterMap.mp he
    obtain ⟨_, _, _, hbr, hcov⟩ := quality_step_inv hstep
    constructor
    · intro q hq
      rw [hbr] at hq
      cases hcq : counts_q rel with
      | failure => rw [hcq] at hq; simp [counts_of, blank_ratio_of] at hq
      | empty => rw [hcq] at hq; simp [counts_of, blank_ratio_of] at hq
      | row row =>
        rw [hcq] at hq
        simp only [counts_of] at hq
        cases hbf : row.blank_fk with
        | none => rw [hbf] at hq; simp [blank_ratio_of] at hq
        | some b =>
          cases htr : row.total_rows with
          | none => rw [hbf, htr] at hq; simp [blank_ratio_of] at hq
          | some t =>
            rw [hbf, htr] at hq
            simp only [blank_ratio_of] at hq
            split at hq
            · simp at hq
            · rename_i ht0
              obtain rfl := (Option.some.inj hq).symm
              exact div_ratio_bounds (hb rel row b t hcq hbf htr) ht0
    · intro q hq
      rw [hcov] at hq
      cases hcq : counts_q rel with
      | failure =>
        rw [hcq] at hq
        cases horf : orphan_of (orphan_q rel) <;>
          simp [counts_of, coverage_of, horf] at hq
      | empty =>
        rw [hcq] at hq
        cases horf : orphan_of (orphan_q rel) <;>
          simp [counts_of, coverage_of, horf] at hq
      | row row =>
        rw [hcq] at hq
        simp only [counts_of] at hq
        cases hoq : orphan_q rel with
        | failure => rw [hoq] at hq; simp [orphan_of, coverage_of] at hq
        | empty => rw [hoq] at hq; simp [orphan_of, coverage_of] at hq
        | row v =>
          rw [hoq] at hq
          simp only [orphan_of] at hq
          cases hv : v with
          | none => rw [hv] at hq; simp [coverage_of] at hq
          | some o =>
            rw [hv] at hq
            cases hdf : row.distinct_fk with
            | none => rw [hdf] at hq; simp [coverage_of] at hq
            | some d =>
              rw [hdf] at hq
              simp only [coverage_of] at hq
              split at hq
              · simp at hq
              · rename_i hd0
                obtain rfl := (Option.some.inj hq).symm
                exact cov_ratio_bounds (ho rel row d o hcq hdf (hv ▸ hoq)) hd0
  · rcases b with _ | bv <;> exact ⟨rfl, rfl, rfl, rfl, rfl, rfl⟩
  · constructor <;> simp [blank_ratio_of, coverage_of, htv]

/-- Witness for C7: applying the analyzer bound theorem at the concrete
snapshot `md_c7` with a 2/10/5 counts row and one orphan key yields the
null-denominator equations and the exact ratio values. -/
theorem C7_ratio_bounds_witness :
    (blank_ratio_of (some 2) (some 10) = some (((2 : ℕ) : ℚ) / ((10 : ℕ) : ℚ))
      ∧ coverage_of (some 2) (some 10) = some (1 - ((2 : ℕ) : ℚ) / ((10 : ℕ) : ℚ)))
    ∧ (blank_ratio_of (some 3) Option.none = Option.none
      ∧ coverage_of (some 3) Option.none = Option.none
      ∧ blank_ratio_of (some 3) (some 0) = Option.none
      ∧ coverage_of (some 3) (some 0) = Option.none
      ∧ blank_ratio_of Option.none (some 3) = Option.none
      ∧ coverage_of Option.none (some 3) = Option.none) := by
  have h := C7_ratio_bounds md_c7 (fun _ => QueryRes.row cr_c7)
      (fun _ => QueryRes.row (some 1))
      (by
        intro rel row b t hrow hbf htr
        injection hrow with hr
        subst hr
        simp [cr_c7] at hbf htr
        omega)
      (by
        intro rel row d o hrow hdf hoq
        injection hrow with hr
        subst hr
        injection hoq with hv
        simp [cr_c7] at hdf
        simp at hv
        omega)
  exact ⟨h.2.2 2 10 (by decide), h.2.1 (some 3)⟩

/-- The direct loop exhausts its candidates exactly when every attempt
fails (raised query, empty result, or blank anchor). -/
theorem direct_try_eq_none {q : String → QueryRes ProfRow} {l : List String} :
    direct_try q l = Option.none ↔ l.all (direct_attempt_fails q) = true := by
  induction l with
  | nil => simp [direct_try]
  | cons c rest ih =>
    simp only [direct_try, List.all_cons, Bool.and_eq_true, direct_attempt_fails]
    cases hq : q c with
    | row r =>
      cases ha : r.anchor with
      | none => simp [ha, ih]
      | some v => simp [ha]
    | failure => simpa using ih
    | empty => simpa using ih

/-- A successful direct attempt carries a non-blank anchor. -/
theorem direct_try_anchor {q : String → QueryRes ProfRow} {l : List String}
    {c : String} {r : ProfRow} (h : direct_try q l = some (c, r)) :
    r.anchor.isSome = true := by
  induction l with
  | nil => simp [direct_try] at h
  | cons a rest ih =>
    simp only [direct_try] at h
    split at h
    · split at h
      · rename_i hs
        have h2 := Option.some.inj h
        rw [Prod.mk.injEq] at h2
        exact h2.2 ▸ hs
      · exact ih h
    · exact ih h

/-- A failed COALESCE stage produces the fallback profile. -/
theorem coalesce_phase_of_fails {dc nc tdc : List String} {cq : QueryRes ProfRow}
    (h : coalesce_fails tdc cq = true) :
    coalesce_phase dc nc tdc cq = fallback_profile dc nc := by
  unfold coalesce_phase
  by_cases hlen : 2 ≤ tdc.length
  · rw [if_pos hlen]
    cases cq with
    | row r =>
      have hn : r.anchor = Option.none := by
        unfold coalesce_fails at h
        rw [if_pos hlen] at h
        exact Option.isNone_iff_eq_none.mp h
      simp [hn]
    | failure => rfl
    | empty => rfl
  · rw [if_neg hlen]

/-- A successful COALESCE stage tags the profile `coalesce` and carries a
non-blank anchor. -/
theorem coalesce_phase_of_ok {dc nc tdc : List String} {cq : QueryRes ProfRow}
    (h : coalesce_fails tdc cq = false) :
    (coalesce_phase dc nc tdc cq).strategy = Strategy.coalesce
    ∧ (coalesce_phase dc nc tdc cq).anchor.isSome = true := by
  unfold coalesce_fails at h
  unfold coalesce_phase
  by_cases hlen : 2 ≤ tdc.length
  · rw [if_pos hlen] at h ⊢
    cases cq with
    | row r =>
      have hs : r.anchor.isSome = true := by
        cases ha : r.anchor <;> simp [ha] at h ⊢
      simp [hs]
    | failure => simp at h
    | empty => simp at h
  · rw [if_neg hlen] at h
    simp at h

/-- A failed via-key stage falls through to the COALESCE stage. -/
theorem via_key_phase_of_fails {dc nc tdc : List String}
    {ki : Option (String × String × String)} {ddc : Option String}
    {vq cq : QueryRes ProfRow} (h : via_key_fails ki ddc vq = true) :
    via_key_phase dc nc tdc ki ddc vq cq = coalesce_phase dc nc tdc cq := by
  rcases ki with _ | ⟨fk, dt, dk⟩
  · rfl
  · rcases ddc with _ | dcol
    · rfl
    · simp only [via_key_fails] at h
      cases vq with
      | row r =>
        have hn : r.anchor = Option.none := Option.isNone_iff_eq_none.mp h
        simp [via_key_phase, hn]
      | failure => rfl
      | empty => rfl

/-- A successful via-key stage tags the profile `via_key` and carries a
non-blank anchor. -/
theorem via_key_phase_of_ok {dc nc tdc : List String}
    {ki : Option (String × String × String)} {ddc : Option String}
    {vq cq : QueryRes ProfRow} (h : via_key_fails ki ddc vq = false) :
    (via_key_phase dc nc tdc ki ddc vq cq).strategy = Strategy.via_key
    ∧ (via_key_phase dc nc tdc ki ddc vq cq).anchor.isSome = true := by
  rcases ki with _ | ⟨fk, dt, dk⟩
  · simp [via_key_fails] at h
  · rcases ddc with _ | dcol
    · simp [via_key_fails] at h
    · simp only [via_key_fails] at h
      cases vq with
      | row r =>
        have hs : r.anchor.isSome = true := by
          cases ha : r.anchor <;> simp [ha] at h ⊢
        simp [via_key_phase, hs]
      | failure => simp at h
      | empty => simp at h

/-- Claim C3: the time-anchor profiler tries direct, via-key, COALESCE,
fallback in that fixed order, stopping at the first strategy with a
non-null anchor; a failed or empty query in one strategy advances to the
next, and only total failure of all data-driven strategies yields the
fallback profile, whose min/max/anchor/nonblank/cnt7/cnt30/cnt90 fields
are all null and which carries only the best-guess candidate column name
(the function is total, so no input makes it raise). -/
theorem C3_anchor_strategy_chain (dc nc tdc : List String)
    (ki : Option (String × String × String)) (ddc : Option String)
    (dq : String → QueryRes ProfRow) (vq cq : QueryRes ProfRow) :
    ((profile_time_anchor dc nc tdc ki ddc dq vq cq).strategy = Strategy.fallback ↔
      ((dc.take 8).all (direct_attempt_fails dq) = true
        ∧ via_key_fails ki ddc vq = true ∧ coalesce_fails tdc cq = true))
    ∧ ((profile_time_anchor dc nc tdc ki ddc dq vq cq).strategy = Strategy.fallback →
        profile_time_anchor dc nc tdc ki ddc dq vq cq = fallback_profile dc nc)
    ∧ ((profile_time_anchor dc nc tdc ki ddc dq vq cq).strategy = Strategy.via_key →
        (dc.take 8).all (direct_attempt_fails dq) = true)
    ∧ ((profile_time_anchor dc nc tdc ki ddc dq vq cq).strategy = Strategy.coalesce →
        (dc.take 8).all (direct_attempt_fails dq) = true
          ∧ via_key_fails ki ddc vq = true)
    ∧ ((profile_time_anchor dc nc tdc ki ddc dq vq cq).strategy ≠ Strategy.fallback →
        (profile_time_anchor dc nc tdc ki ddc dq vq cq).anchor.isSome = true)
    ∧ ((fallback_profile dc nc).min = Option.none
        ∧ (fallback_profile dc nc).max = Option.none
        ∧ (fallback_profile dc nc).anchor = Option.none
        ∧ (fallback_profile dc nc).nonblank = Option.none
        ∧ (fallback_profile dc nc).cnt7 = Option.none
        ∧ (fallback_profile dc nc).cnt30 = Option.none
        ∧ (fallback_profile dc nc).cnt90 = Option.none) := by
  cases hD : direct_try dq (dc.take 8) with
  | some cr =>
    obtain ⟨c, r⟩ := cr
    have hsome : r.anchor.isSome = true := direct_try_anchor hD
    have hP : profile_time_anchor dc nc tdc ki ddc dq vq cq =
        { anchor_column := r.column, anchor_reference_column := some c,
          min := r.min, max := r.max, anchor := r.anchor, nonblank := r.nonblank,
          cnt7 := r.cnt7, cnt30 := r.cnt30, cnt90 := r.cnt90,
          strategy := Strategy.direct } := by
      unfold profile_time_anchor
      rw [hD]
    have hnall : ¬((dc.take 8).all (direct_attempt_fails dq) = true) := by
      intro hall
      have := direct_try_eq_none.mpr hall
      rw [hD] at this
      cases this
    rw [hP]
    refine ⟨?_, ?_, ?_, ?_, ?_, ⟨rfl, rfl, rfl, rfl, rfl, rfl, rfl⟩⟩
    · constructor
      · intro hcontra
        cases hcontra
      · intro ⟨hall, _, _⟩
        exact absurd hall hnall
    · intro hcontra
      cases hcontra
    · intro hcontra
      cases hcontra
    · intro hcontra
      cases hcontra
    · intro _
      exact hsome
  | none =>
    have hall : (dc.take 8).all (direct_attempt_fails dq) = true :=
      direct_try_eq_none.mp hD
    have hP : profile_time_anchor dc nc tdc ki ddc dq vq cq =
        via_key_phase dc nc tdc ki ddc vq cq := by
      unfold profile_time_anchor
      rw [hD]
    rw [hP]
    by_cases hV : via_key_fails ki ddc vq = true
    · rw [via_key_phase_of_fails hV]
      by_cases hC : coalesce_fails tdc cq = true
      · rw [coalesce_phase_of_fails hC]
        refine ⟨?_, ?_, ?_, ?_, ?_, ⟨rfl, rfl, rfl, rfl, rfl, rfl, rfl⟩⟩
        · exact ⟨fun _ => ⟨hall, hV, hC⟩, fun _ => rfl⟩
        · intro _
          rfl
        · intro hcontra
          cases hcontra
        · intro hcontra
          cases hcontra
        · intro hcontra
          exact absurd rfl hcontra
      · have hCf : coalesce_fails tdc cq = false := by
          cases hcf : coalesce_fails tdc cq
          · rfl
          · exact absurd hcf hC
        obtain ⟨hs, ha⟩ := @coalesce_phase_of_ok dc nc tdc cq hCf
        refine ⟨?_, ?_, ?_, ?_, ?_, ⟨rfl, rfl, rfl, rfl, rfl, rfl, rfl⟩⟩
        · constructor
          · intro hcontra
            rw [hs] at hcontra
            cases hcontra
          · intro ⟨_, _, hC2⟩
            exact absurd hC2 hC
        · intro hcontra
          rw [hs] at hcontra
          cases hcontra
        · intro hcontra
          rw [hs] at hcontra
          cases hcontra
        · intro _
          exact ⟨hall, hV⟩
        · intro _
          exact ha
    · have hVf : via_key_fails ki ddc vq = false := by
        cases hvf : via_key_fails ki ddc vq
        · rfl
        · exact absurd hvf hV
      obtain ⟨hs, ha⟩ := @via_key_phase_of_ok dc nc tdc ki ddc vq cq hVf
      refine ⟨?_, ?_, ?_, ?_, ?_, ⟨rfl, rfl, rfl, rfl, rfl, rfl, rfl⟩⟩
      · constructor
        · intro hcontra
          rw [hs] at hcontra
          cases hcontra
        · intro ⟨_, hV2, _⟩
          exact absurd hV2 hV
      · intro hcontra
        rw [hs] at hcontra
        cases hcontra
      · intro _
        exact hall
      · intro hcontra
        rw [hs] at hcontra
        cases hcontra
      · intro _
        exact ha

/-- Witness for C3: with one direct candidate whose query raises, no key
triple, and raising via-key/COALESCE queries, the profiler lands on the
fallback strategy and returns the structurally empty profile. -/
theorem C3_anchor_strategy_chain_witness :
    (profile_time_anchor ["SubmittedDate"] [] [] Option.none Option.none
        (fun _ => QueryRes.failure) QueryRes.failure QueryRes.failure).strategy
      = Strategy.fallback
    ∧ profile_time_anchor ["SubmittedDate"] [] [] Option.none Option.none
        (fun _ => QueryRes.failure) QueryRes.failure QueryRes.failure
      = fallback_profile ["SubmittedDate"] [] := by
  have h := C3_anchor_strategy_chain ["SubmittedDate"] [] [] Option.none Option.none
      (fun _ => QueryRes.failure) QueryRes.failure QueryRes.failure
  have hf : (profile_time_anchor ["SubmittedDate"] [] [] Option.none Option.none
      (fun _ => QueryRes.failure) QueryRes.failure QueryRes.failure).strategy
      = Strategy.fallback := h.1.mpr ⟨by decide, by decide, by decide⟩
  exact ⟨hf, h.2.1 hf⟩

end ProcessSemanticModel
